import Mathlib

set_option maxHeartbeats 1000000

namespace QRBot

/-- A browser file handle as the page sees it: declared name, declared MIME
type (the `File.type` property), and the content bytes. -/
structure File where
  name : String
  type : String
  bytes : List Nat
deriving DecidableEq

/-- A toast notification as fired through `useToast`. -/
structure Toast where
  variant : String
  title : String
  description : String
deriving DecidableEq

/-- The UI state of `KLSEAnalyzerPage`: the five `useState` hooks
(`file`, `isLoading`, `progress`, `analysisResult`, `error`), the two
form fields managed by `useForm` (`apiKey`, `model`), and the value of
the hidden file input element. -/
structure UIState where
  file : Option File
  isLoading : Bool
  progress : Nat
  analysisResult : Option String
  error : Option String
  apiKeyField : String
  modelField : String
  fileInputValue : String
deriving DecidableEq

/-- The initial state of the page: `useState` initialisers
(null, false, 0, null, null) and the `useForm` `defaultValues`
(`apiKey: ""`, `model: "gemini-2.5-flash"`). -/
def initialState : UIState :=
  { file := none
    isLoading := false
    progress := 0
    analysisResult := none
    error := none
    apiKeyField := ""
    modelField := "gemini-2.5-flash"
    fileInputValue := "" }

/-- The destructive toast fired by `handleFileSelect` on a non-PDF file. -/
def invalidFileToast : Toast :=
  { variant := "destructive"
    title := "文件类型无效"
    description := "请上传 PDF 格式的文件。" }

/-- Embedding of `handleFileSelect`: if the selected file's declared type is
not `application/pdf`, fire the destructive toast and `setFile(null)`;
otherwise `setError(null)` and `setFile(selectedFile)`. Returns the updated
state together with the list of toasts fired. -/
def handleFileSelect (s : UIState) (selectedFile : File) : UIState × List Toast :=
  if selectedFile.type ≠ "application/pdf" then
    ({ s with file := none }, [invalidFileToast])
  else
    ({ s with error := none, file := some selectedFile }, [])

/-- Embedding of `resetState`: `setFile(null)`, `setAnalysisResult(null)`,
`setError(null)`, `setIsLoading(false)`, `setProgress(0)`, clear the file
input element value, and `form.reset()` back to the `defaultValues`. -/
def resetState (s : UIState) : UIState :=
  { s with
    file := none
    analysisResult := none
    error := none
    isLoading := false
    progress := 0
    fileInputValue := ""
    apiKeyField := ""
    modelField := "gemini-2.5-flash" }

/-- The standard base64 alphabet, indexed by sextet value: `A`-`Z` are
0-25, `a`-`z` are 26-51, `0`-`9` are 52-61, then `+` and `/`. -/
def base64CharOfSextet (n : Nat) : Char :=
  if n < 26 then Char.ofNat (65 + n)
  else if n < 52 then Char.ofNat (71 + n)
  else if n < 62 then Char.ofNat (n - 4)
  else if n = 62 then Char.ofNat 43
  else Char.ofNat 47

/-- Inverse of the base64 alphabet: maps an alphabet character back to its
sextet value. -/
def sextetOfBase64Char (c : Char) : Nat :=
  if 65 ≤ c.toNat ∧ c.toNat ≤ 90 then c.toNat - 65
  else if 97 ≤ c.toNat ∧ c.toNat ≤ 122 then c.toNat - 71
  else if 48 ≤ c.toNat ∧ c.toNat ≤ 57 then c.toNat + 4
  else if c.toNat = 43 then 62
  else 63

/-- Standard base64 encoding of a byte list, three bytes to four output
characters, with `=` padding for a final group of one or two bytes. -/
def base64Encode : List Nat → List Char
  | [] => []
  | [b1] =>
      [base64CharOfSextet (b1 / 4), base64CharOfSextet (b1 % 4 * 16), '=', '=']
  | [b1, b2] =>
      [base64CharOfSextet (b1 / 4), base64CharOfSextet (b1 % 4 * 16 + b2 / 16),
       base64CharOfSextet (b2 % 16 * 4), '=']
  | b1 :: b2 :: b3 :: rest =>
      base64CharOfSextet (b1 / 4) ::
      base64CharOfSextet (b1 % 4 * 16 + b2 / 16) ::
      base64CharOfSextet (b2 % 16 * 4 + b3 / 64) ::
      base64CharOfSextet (b3 % 64) ::
      base64Encode rest

/-- Standard base64 decoding, four characters to three bytes, honouring
`=` padding in the final group. -/
def base64Decode : List Char → List Nat
  | c1 :: c2 :: c3 :: c4 :: rest =>
      if c3 = '=' then
        [sextetOfBase64Char c1 * 4 + sextetOfBase64Char c2 / 16]
      else if c4 = '=' then
        [sextetOfBase64Char c1 * 4 + sextetOfBase64Char c2 / 16,
         sextetOfBase64Char c2 % 16 * 16 + sextetOfBase64Char c3 / 4]
      else
        (sextetOfBase64Char c1 * 4 + sextetOfBase64Char c2 / 16) ::
        (sextetOfBase64Char c2 % 16 * 16 + sextetOfBase64Char c3 / 4) ::
        (sextetOfBase64Char c3 % 4 * 64 + sextetOfBase64Char c4) ::
        base64Decode rest
  | _ => []

/-- Modelled from the browser contract that `fileToBase64` wraps:
`FileReader.readAsDataURL` yields `data:<mimetype>;base64,<encoded_data>`
built from the file's declared MIME type and the base64 encoding of its
bytes. The repository function only promisifies this reader. -/
def fileToBase64 (f : File) : String :=
  "data:" ++ f.type ++ ";base64," ++ String.mk (base64Encode f.bytes)

theorem sextet_round : ∀ n < 64, sextetOfBase64Char (base64CharOfSextet n) = n := by
  decide

theorem base64Char_ne_pad : ∀ n < 64, base64CharOfSextet n ≠ '=' := by
  decide

theorem base64_decode_encode :
    ∀ bs : List Nat, (∀ b ∈ bs, b < 256) → base64Decode (base64Encode bs) = bs
  | [], _ => rfl
  | [b1], h => by
      have hb1 : b1 < 256 := h b1 (by simp)
      have e1 := sextet_round (b1 / 4) (by omega)
      have e2 := sextet_round (b1 % 4 * 16) (by omega)
      simp [base64Encode, base64Decode, e1, e2]
      omega
  | [b1, b2], h => by
      have hb1 : b1 < 256 := h b1 (by simp)
      have hb2 : b2 < 256 := h b2 (by simp)
      have ne3 := base64Char_ne_pad (b2 % 16 * 4) (by omega)
      have e1 := sextet_round (b1 / 4) (by omega)
      have e2 := sextet_round (b1 % 4 * 16 + b2 / 16) (by omega)
      have e3 := sextet_round (b2 % 16 * 4) (by omega)
      simp [base64Encode, base64Decode, ne3, e1, e2, e3]
      omega
  | b1 :: b2 :: b3 :: rest, h => by
      have hb1 : b1 < 256 := h b1 (by simp)
      have hb2 : b2 < 256 := h b2 (by simp)
      have hb3 : b3 < 256 := h b3 (by simp)
      have ne3 := base64Char_ne_pad (b2 % 16 * 4 + b3 / 64) (by omega)
      have ne4 := base64Char_ne_pad (b3 % 64) (by omega)
      have e1 := sextet_round (b1 / 4) (by omega)
      have e2 := sextet_round (b1 % 4 * 16 + b2 / 16) (by omega)
      have e3 := sextet_round (b2 % 16 * 4 + b3 / 64) (by omega)
      have e4 := sextet_round (b3 % 64) (by omega)
      have ih := base64_decode_encode rest (fun b hb => h b (by simp [hb]))
      simp [base64Encode, base64Decode, ne3, ne4, e1, e2, e3, e4, ih]
      refine ⟨by omega, by omega, by omega⟩

/-- Test that appending to a string does produce the expected character
list. -/
theorem string_data_append (a b : String) : (a ++ b).data = a.data ++ b.data := rfl

/-- Boolean check that the character list `s` begins with the character
list `p`. -/
def listStartsWith : List Char → List Char → Bool
  | _, [] => true
  | [], _ :: _ => false
  | a :: s, b :: p => a == b && listStartsWith s p

/-- Boolean check that the character list `s` contains the character list
`p` as a contiguous run. -/
def containsSeq : List Char → List Char → Bool
  | [], p => p.isEmpty
  | a :: rest, p => listStartsWith (a :: rest) p || containsSeq rest p

theorem listStartsWith_self_append (p l : List Char) :
    listStartsWith (p ++ l) p = true := by
  induction p with
  | nil => simp [listStartsWith]
  | cons a p ih => simp [listStartsWith, ih]

/-- Input of `analyzeKLSEReport`, after `AnalyzeKLSEReportInputSchema`: a
report data URI, a Gemini model name, and an API key, all strings. -/
structure AnalyzeKLSEReportInput where
  reportDataUri : String
  geminiModel : String
  apiKey : String
deriving DecidableEq

/-- Output of `analyzeKLSEReport`, after `AnalyzeKLSEReportOutputSchema`. -/
structure AnalyzeKLSEReportOutput where
  blogPostHtml : String
deriving DecidableEq

/-- Embedding of the validation `AnalyzeKLSEReportInputSchema` performs on an
input whose fields are strings: `z.string().describe(...)` attaches
documentation only and accepts every string, while `z.enum` restricts
`geminiModel` to the two model names. -/
def analyzeInputSchemaAccepts (i : AnalyzeKLSEReportInput) : Bool :=
  i.geminiModel == "gemini-2.5-pro" || i.geminiModel == "gemini-2.5-flash"

/-- The input invariant in the words of the specification, for comparison
with what the schema actually enforces: `reportDataUri` begins with the
`data:` scheme and carries a `;base64,` payload marker, and `apiKey` is
non-empty. -/
def specReportInputInvariant (i : AnalyzeKLSEReportInput) : Bool :=
  listStartsWith i.reportDataUri.data ("data:".data)
  && containsSeq i.reportDataUri.data (";base64,".data)
  && decide (1 ≤ i.apiKey.length)

/-- The process environment as the flow touches it: the value of the
`GOOGLE_GENAI_API_KEY` variable. -/
structure GenEnv where
  googleGenaiApiKey : Option String
deriving DecidableEq

/-- One outbound generate call as issued through `analyzeKLSEReportPrompt`:
the model identifier passed in the call options, the prompt input fields, and
the process-wide credential in force at the moment of the call. -/
structure ModelCall where
  model : String
  reportDataUri : String
  geminiModel : String
  apiKey : String
  credentialAtCall : Option String
deriving DecidableEq

/-- Embedding of `analyzeKLSEReportFlow`: destructure the input, assign
`process.env.GOOGLE_GENAI_API_KEY = apiKey`, then issue the single prompt
call with the model option `googleai/` followed by the chosen model name.
`respond` abstracts the external model. Returns the final environment, the
trace of outbound calls, and the flow's output. -/
def analyzeKLSEReportFlow (respond : ModelCall → AnalyzeKLSEReportOutput)
    (env : GenEnv) (input : AnalyzeKLSEReportInput) :
    GenEnv × List ModelCall × AnalyzeKLSEReportOutput :=
  let env1 : GenEnv := { env with googleGenaiApiKey := some input.apiKey }
  let call : ModelCall :=
    { model := "googleai/" ++ input.geminiModel
      reportDataUri := input.reportDataUri
      geminiModel := input.geminiModel
      apiKey := input.apiKey
      credentialAtCall := env1.googleGenaiApiKey }
  (env1, [call], respond call)

/-- The two form fields validated by `formSchema`. -/
structure FormValues where
  apiKey : String
  model : String
deriving DecidableEq

/-- Embedding of `formSchema`: `apiKey` must be a string of length at least 1
and `model` one of the two enum values. -/
def formSchemaValid (v : FormValues) : Bool :=
  decide (1 ≤ v.apiKey.length)
  && (v.model == "gemini-2.5-pro" || v.model == "gemini-2.5-flash")

/-- Result of awaiting the submission pipeline: the upstream call succeeds
with an output, throws a JavaScript `Error` carrying a message, or throws a
non-`Error` value. -/
inductive Upstream where
  | ok : AnalyzeKLSEReportOutput → Upstream
  | thrownError : String → Upstream
  | thrownOther : Upstream
deriving DecidableEq

/-- The destructive toast fired by `onSubmit` when the analysis fails. -/
def analysisFailedToast : Toast :=
  { variant := "destructive"
    title := "分析出错"
    description := "无法分析报告。请检查您的 API 密钥和文件，然后重试。" }

/-- What one run of `onSubmit` produced: the final UI state, the toasts
fired, the outbound requests made (each one `analyzeKLSEReport` input), and
whether an exception escaped the handler. -/
structure SubmitOutcome where
  state : UIState
  toasts : List Toast
  requests : List AnalyzeKLSEReportInput
  raised : Bool
deriving DecidableEq

/-- Embedding of one tick of `progressInterval`: once the displayed progress
has reached 95 it stays put, otherwise it advances by 5. -/
def progressTick (prev : Nat) : Nat :=
  if prev ≥ 95 then prev else prev + 5

/-- Embedding of `onSubmit`. With no selected file it sets the inline error
and returns at once. Otherwise it clears error and result, enters loading
with progress 0, lets the interval tick `ticks` times while the request is in
flight, encodes the file, makes the single `analyzeKLSEReport` request, and
either records the result with progress 100, or catches the thrown value,
sets the inline error from its message and fires the destructive toast. The
`finally` block clears the interval and leaves the loading state. -/
def onSubmit (s : UIState) (values : FormValues) (ticks : Nat)
    (upstream : Upstream) : SubmitOutcome :=
  match s.file with
  | none =>
      { state := { s with error := some "请上传一份季度报告 PDF。" }
        toasts := []
        requests := []
        raised := false }
  | some f =>
      let inFlight : UIState :=
        { s with error := none, analysisResult := none, isLoading := true,
                 progress := progressTick^[ticks] 0 }
      let request : AnalyzeKLSEReportInput :=
        { reportDataUri := fileToBase64 f
          geminiModel := values.model
          apiKey := values.apiKey }
      match upstream with
      | .ok result =>
          { state :=
              { inFlight with
                analysisResult := some result.blogPostHtml
                progress := 100
                isLoading := false }
            toasts := []
            requests := [request]
            raised := false }
      | .thrownError m =>
          { state :=
              { inFlight with
                error := some ("分析失败：" ++ m)
                isLoading := false }
            toasts := [analysisFailedToast]
            requests := [request]
            raised := false }
      | .thrownOther =>
          { state :=
              { inFlight with
                error := some ("分析失败：" ++ "发生未知错误。")
                isLoading := false }
            toasts := [analysisFailedToast]
            requests := [request]
            raised := false }

/-- Embedding of `form.handleSubmit(onSubmit)`: the zod resolver validates
the field values against `formSchema`, and only on success is `onSubmit`
invoked; an invalid form changes nothing and makes no request. -/
def handleSubmit (s : UIState) (v : FormValues) (ticks : Nat)
    (upstream : Upstream) : SubmitOutcome :=
  if formSchemaValid v then onSubmit s v ticks upstream
  else { state := s, toasts := [], requests := [], raised := false }

/-- What the page shows, by the three top-level branches of
`KLSEAnalyzerPage`: the loading card with the progress percentage, the result
view that injects `analysisResult` verbatim through
`dangerouslySetInnerHTML`, or the upload form with the current file and
inline error. -/
inductive View where
  | loading : Nat → View
  | result : String → View
  | form : Option File → Option String → View
deriving DecidableEq

/-- Embedding of the page's render branches. -/
def render (s : UIState) : View :=
  if s.isLoading then View.loading s.progress
  else
    match s.analysisResult with
    | some html => View.result html
    | none => View.form s.file s.error

/-- Progress values reachable while a request is in flight: `setProgress(0)`
at submission, then any number of interval ticks. -/
inductive InFlightProgress : Nat → Prop where
  | start : InFlightProgress 0
  | tick {p : Nat} : InFlightProgress p → InFlightProgress (progressTick p)

/-- Progress values the page can ever display: an in-flight value, or the
100 set on a successful response. -/
inductive ReachableProgress : Nat → Prop where
  | inFlight {p : Nat} : InFlightProgress p → ReachableProgress p
  | success : ReachableProgress 100

theorem inFlightProgress_le (p : Nat) (h : InFlightProgress p) :
    5 ∣ p ∧ p ≤ 95 := by
  induction h with
  | start => exact ⟨⟨0, rfl⟩, by omega⟩
  | tick _ ih =>
      obtain ⟨⟨c, hc⟩, hle⟩ := ih
      unfold progressTick
      split
      · exact ⟨⟨c, hc⟩, hle⟩
      · subst hc
        exact ⟨⟨c + 1, by omega⟩, by omega⟩

/-- A sample PDF file: the bytes spell `%PDF`. -/
def samplePDF : File :=
  { name := "report.pdf", type := "application/pdf", bytes := [37, 80, 68, 70] }

/-- A sample plain-text file, used as a non-PDF selection. -/
def sampleTxt : File :=
  { name := "notes.txt", type := "text/plain", bytes := [104, 105] }

/-- A state in which a PDF has been selected and the form filled in. -/
def readyState : UIState :=
  { initialState with file := some samplePDF, apiKeyField := "key" }

/-- Sample validated form values. -/
def sampleValues : FormValues :=
  { apiKey := "key", model := "gemini-2.5-flash" }

/-- A sample successful upstream output. -/
def sampleOutput : AnalyzeKLSEReportOutput :=
  { blogPostHtml := "<div>ok</div>" }

/-- A flow input that violates the data-URI and non-empty-key invariant the
specification states, while keeping a legal enum value for the model. -/
def badInput : AnalyzeKLSEReportInput :=
  { reportDataUri := "not-a-data-uri", geminiModel := "gemini-2.5-flash", apiKey := "" }

/-- C1 counterexample: with a PDF currently selected, selecting a file of a
different declared type does not leave the selection unchanged —
`handleFileSelect` clears it to none. -/
theorem handleFileSelect_clears_selection :
    (handleFileSelect { initialState with file := some samplePDF } sampleTxt).1.file
      ≠ ({ initialState with file := some samplePDF } : UIState).file := by
  decide

/-- C1 (amended): for every selected file whose declared MIME type is not
`application/pdf`, `handleFileSelect` rejects it with a destructive toast and
clears the selection to none, leaving every other state component (including
the inline error) unchanged; the previous selection is therefore retained
only when it was already empty. -/
theorem handleFileSelect_rejects_non_pdf (s : UIState) (f : File)
    (h : f.type ≠ "application/pdf") :
    (handleFileSelect s f).1 = { s with file := none }
    ∧ (handleFileSelect s f).2 = [invalidFileToast]
    ∧ invalidFileToast.variant = "destructive" := by
  refine ⟨?_, ?_, rfl⟩ <;> simp [handleFileSelect, h]

/-- C1 witness: the amended statement at a concrete non-PDF selection. -/
theorem handleFileSelect_rejects_non_pdf_witness :
    sampleTxt.type ≠ "application/pdf"
    ∧ ((handleFileSelect initialState sampleTxt).1 = { initialState with file := none }
      ∧ (handleFileSelect initialState sampleTxt).2 = [invalidFileToast]
      ∧ invalidFileToast.variant = "destructive") :=
  ⟨by decide, handleFileSelect_rejects_non_pdf initialState sampleTxt (by decide)⟩

/-- C2 counterexample: an input whose reportDataUri is not a data URI and
whose apiKey is empty is nonetheless accepted by the schema — the data-URI
format and the non-empty key are described, not validated. -/
theorem analyze_schema_accepts_invalid_input :
    analyzeInputSchemaAccepts badInput = true
    ∧ specReportInputInvariant badInput = false := by
  decide

/-- C2 (amended): the flow's input validation checks only that geminiModel is
one of the two enum values; it is insensitive to the contents of
reportDataUri and apiKey, so the data-URI format and the non-emptiness of the
key are documented expectations, not enforced invariants. -/
theorem analyze_schema_checks_model_only (i : AnalyzeKLSEReportInput)
    (u k : String) :
    analyzeInputSchemaAccepts { i with reportDataUri := u, apiKey := k }
      = analyzeInputSchemaAccepts i
    ∧ (analyzeInputSchemaAccepts i = true →
        i.geminiModel = "gemini-2.5-pro" ∨ i.geminiModel = "gemini-2.5-flash") := by
  refine ⟨rfl, ?_⟩
  intro hacc
  simpa [analyzeInputSchemaAccepts] using hacc

/-- C2 witness: the amended statement at a concrete input. -/
theorem analyze_schema_checks_model_only_witness :
    (analyzeInputSchemaAccepts { badInput with reportDataUri := "u", apiKey := "k" }
      = analyzeInputSchemaAccepts badInput)
    ∧ (analyzeInputSchemaAccepts badInput = true →
        badInput.geminiModel = "gemini-2.5-pro"
        ∨ badInput.geminiModel = "gemini-2.5-flash") :=
  analyze_schema_checks_model_only badInput "u" "k"

/-- C3: every run of the flow makes exactly one outbound model call; the
process-wide credential is set to the supplied apiKey and is in force at that
call, and the call is issued against the model identifier `googleai/`
concatenated with the supplied geminiModel. -/
theorem flow_sets_credential_and_model
    (respond : ModelCall → AnalyzeKLSEReportOutput) (env : GenEnv)
    (input : AnalyzeKLSEReportInput) :
    ∃ call : ModelCall,
      (analyzeKLSEReportFlow respond env input).2.1 = [call]
      ∧ call.credentialAtCall = some input.apiKey
      ∧ (analyzeKLSEReportFlow respond env input).1.googleGenaiApiKey
          = some input.apiKey
      ∧ call.model = "googleai/" ++ input.geminiModel :=
  ⟨_, rfl, rfl, rfl, rfl⟩

/-- C4: for every selected file (a list of bytes), `fileToBase64` produces
the data URI `data:<mime>;base64,<payload>` — a string that starts with
`data:` — whose base64 payload decodes back to exactly the original bytes. -/
theorem fileToBase64_round_trip (f : File) (h : ∀ b ∈ f.bytes, b < 256) :
    fileToBase64 f
      = "data:" ++ f.type ++ ";base64," ++ String.mk (base64Encode f.bytes)
    ∧ listStartsWith (fileToBase64 f).data ("data:".data) = true
    ∧ base64Decode (base64Encode f.bytes) = f.bytes := by
  refine ⟨rfl, ?_, base64_decode_encode f.bytes h⟩
  have hd : (fileToBase64 f).data
      = "data:".data ++ (f.type.data ++ (";base64,".data
          ++ (String.mk (base64Encode f.bytes)).data)) := by
    simp [fileToBase64, string_data_append, List.append_assoc]
  rw [hd]
  exact listStartsWith_self_append _ _

/-- C4 witness: the round trip at a concrete PDF file. -/
theorem fileToBase64_round_trip_witness :
    (∀ b ∈ samplePDF.bytes, b < 256)
    ∧ (fileToBase64 samplePDF
        = "data:" ++ samplePDF.type ++ ";base64,"
            ++ String.mk (base64Encode samplePDF.bytes)
      ∧ listStartsWith (fileToBase64 samplePDF).data ("data:".data) = true
      ∧ base64Decode (base64Encode samplePDF.bytes) = samplePDF.bytes) :=
  ⟨by decide, fileToBase64_round_trip samplePDF (by decide)⟩

/-- C5: when the upstream call throws an `Error` with message `m`, `onSubmit`
catches it at top level: the displayed error is a string that contains `m`,
the destructive toast fires, exactly one upstream request was made (no
retry), and no exception escapes the handler. -/
theorem onSubmit_catches_upstream_error (s : UIState) (v : FormValues)
    (f : File) (t : Nat) (m : String) (h : s.file = some f) :
    (onSubmit s v t (Upstream.thrownError m)).state.error
        = some ("分析失败：" ++ m)
    ∧ (∃ before, "分析失败：" ++ m = before ++ m)
    ∧ (onSubmit s v t (Upstream.thrownError m)).toasts = [analysisFailedToast]
    ∧ analysisFailedToast.variant = "destructive"
    ∧ (onSubmit s v t (Upstream.thrownError m)).requests.length = 1
    ∧ (onSubmit s v t (Upstream.thrownError m)).raised = false := by
  refine ⟨?_, ⟨"分析失败：", rfl⟩, ?_, rfl, ?_, ?_⟩ <;> simp [onSubmit, h]

/-- C5 witness: the statement at a concrete failing submission. -/
theorem onSubmit_catches_upstream_error_witness :
    readyState.file = some samplePDF
    ∧ ((onSubmit readyState sampleValues 2 (Upstream.thrownError "Unauthorized")).state.error
          = some ("分析失败：" ++ "Unauthorized")
      ∧ (∃ before, "分析失败：" ++ "Unauthorized" = before ++ "Unauthorized")
      ∧ (onSubmit readyState sampleValues 2 (Upstream.thrownError "Unauthorized")).toasts
          = [analysisFailedToast]
      ∧ analysisFailedToast.variant = "destructive"
      ∧ (onSubmit readyState sampleValues 2 (Upstream.thrownError "Unauthorized")).requests.length = 1
      ∧ (onSubmit readyState sampleValues 2 (Upstream.thrownError "Unauthorized")).raised = false) :=
  ⟨rfl, onSubmit_catches_upstream_error readyState sampleValues samplePDF 2
    "Unauthorized" rfl⟩

/-- C6: after `resetState`, every component of the UI state is back at its
initial value — file, result, error, progress, the loading flag, and the form
fields — whatever the state was before the reset. -/
theorem resetState_restores_initial (s : UIState) :
    resetState s = initialState
    ∧ (resetState s).file = none
    ∧ (resetState s).analysisResult = none
    ∧ (resetState s).error = none
    ∧ (resetState s).progress = 0
    ∧ (resetState s).isLoading = false
    ∧ (resetState s).apiKeyField = ""
    ∧ (resetState s).modelField = "gemini-2.5-flash" :=
  ⟨rfl, rfl, rfl, rfl, rfl, rfl, rfl, rfl⟩

/-- C7: the in-flight progress starts at 0, each tick below 95 adds exactly
5 and the value never exceeds 95 while the request is in flight; a successful
response sets it to 100; and every displayable progress value lies between 0
and 100. -/
theorem progress_always_bounded :
    (∀ p, p < 95 → progressTick p = p + 5)
    ∧ (∀ p, InFlightProgress p → p ≤ 95)
    ∧ (∀ (s : UIState) (v : FormValues) (f : File) (t : Nat)
        (r : AnalyzeKLSEReportOutput), s.file = some f →
        (onSubmit s v t (Upstream.ok r)).state.progress = 100)
    ∧ (∀ p, ReachableProgress p → 0 ≤ p ∧ p ≤ 100) := by
  refine ⟨?_, ?_, ?_, ?_⟩
  · intro p h
    unfold progressTick
    rw [if_neg (by omega)]
  · intro p h
    exact (inFlightProgress_le p h).2
  · intro s v f t r h
    simp [onSubmit, h]
  · intro p h
    cases h with
    | inFlight hp => exact ⟨Nat.zero_le _, le_trans (inFlightProgress_le _ hp).2 (by omega)⟩
    | success => exact ⟨Nat.zero_le _, le_refl _⟩

/-- C7 witness: concrete instances of each conjunct. -/
theorem progress_always_bounded_witness :
    progressTick 0 = 0 + 5
    ∧ (5 : Nat) ≤ 95
    ∧ (onSubmit readyState sampleValues 3 (Upstream.ok sampleOutput)).state.progress = 100
    ∧ (0 ≤ (5 : Nat) ∧ (5 : Nat) ≤ 100) :=
  ⟨progress_always_bounded.1 0 (by decide),
   progress_always_bounded.2.1 5 (InFlightProgress.tick InFlightProgress.start),
   progress_always_bounded.2.2.1 readyState sampleValues samplePDF 3 sampleOutput rfl,
   progress_always_bounded.2.2.2 5
     (ReachableProgress.inFlight (InFlightProgress.tick InFlightProgress.start))⟩

/-- C8: a submission whose API key field is the empty string fails the
`formSchema` validation, so the submit handler is never invoked: the state is
unchanged, no toast fires, and no upstream request is made. -/
theorem handleSubmit_blocks_empty_api_key (s : UIState) (v : FormValues)
    (t : Nat) (u : Upstream) (h : v.apiKey = "") :
    formSchemaValid v = false
    ∧ handleSubmit s v t u
        = { state := s, toasts := [], requests := [], raised := false } := by
  have hv : formSchemaValid v = false := by
    unfold formSchemaValid
    rw [h]
    rfl
  exact ⟨hv, by simp [handleSubmit, hv]⟩

/-- C8 witness: a concrete submission with an empty API key. -/
theorem handleSubmit_blocks_empty_api_key_witness :
    ({ apiKey := "", model := "gemini-2.5-flash" } : FormValues).apiKey = ""
    ∧ (formSchemaValid { apiKey := "", model := "gemini-2.5-flash" } = false
      ∧ handleSubmit readyState { apiKey := "", model := "gemini-2.5-flash" } 0
          (Upstream.ok sampleOutput)
        = { state := readyState, toasts := [], requests := [], raised := false }) :=
  ⟨rfl, handleSubmit_blocks_empty_api_key readyState
    { apiKey := "", model := "gemini-2.5-flash" } 0 (Upstream.ok sampleOutput) rfl⟩

/-- C9: on a successful upstream response carrying blogPostHtml `h`,
`onSubmit` stores exactly `h` in analysisResult, and the page renders the
result view holding that same string unmodified. -/
theorem onSubmit_success_renders_verbatim (s : UIState) (v : FormValues)
    (f : File) (t : Nat) (html : String) (hf : s.file = some f) :
    (onSubmit s v t (Upstream.ok { blogPostHtml := html })).state.analysisResult
        = some html
    ∧ render (onSubmit s v t (Upstream.ok { blogPostHtml := html })).state
        = View.result html := by
  constructor <;> simp [onSubmit, render, hf]

/-- C9 witness: a concrete successful submission rendered verbatim. -/
theorem onSubmit_success_renders_verbatim_witness :
    readyState.file = some samplePDF
    ∧ ((onSubmit readyState sampleValues 1
          (Upstream.ok { blogPostHtml := "<div>ok</div>" })).state.analysisResult
        = some "<div>ok</div>"
      ∧ render (onSubmit readyState sampleValues 1
          (Upstream.ok { blogPostHtml := "<div>ok</div>" })).state
        = View.result "<div>ok</div>") :=
  ⟨rfl, onSubmit_success_renders_verbatim readyState sampleValues samplePDF 1
    "<div>ok</div>" rfl⟩

/-- C10: selecting a file whose declared type is `application/pdf` clears the
inline error and stores the file as the current selection; a rejected non-PDF
selection leaves the inline error unchanged and signals only through the
toast notification. -/
theorem handleFileSelect_error_frame (s : UIState) (f : File) :
    (f.type = "application/pdf" →
      (handleFileSelect s f).1 = { s with error := none, file := some f }
      ∧ (handleFileSelect s f).2 = [])
    ∧ (f.type ≠ "application/pdf" →
      (handleFileSelect s f).1.error = s.error
      ∧ (handleFileSelect s f).2 = [invalidFileToast]) := by
  constructor
  · intro h
    constructor <;> simp [handleFileSelect, h]
  · intro h
    constructor <;> simp [handleFileSelect, h]

/-- C10 witness: both branches at concrete selections. -/
theorem handleFileSelect_error_frame_witness :
    ((handleFileSelect initialState samplePDF).1
        = { initialState with error := none, file := some samplePDF }
      ∧ (handleFileSelect initialState samplePDF).2 = [])
    ∧ ((handleFileSelect initialState sampleTxt).1.error = initialState.error
      ∧ (handleFileSelect initialState sampleTxt).2 = [invalidFileToast]) :=
  ⟨(handleFileSelect_error_frame initialState samplePDF).1 (by decide),
   (handleFileSelect_error_frame initialState sampleTxt).2 (by decide)⟩

end QRBot
